import Mathlib

/-!
Shallow embedding of the rif-rollup-tx-simulator sources.

Files embedded: src/throttler.rs, src/transaction.rs, src/config.rs,
src/cli.rs, src/main.rs, src/rollup/types/mod.rs (the parts the claims
touch).  Machine integers are modelled as Nat with explicit bounds where
overflow or range matters; wall-clock time is modelled as an explicit
rational number of seconds threaded through the functions that read the
clock or sleep; Rust panics are modelled as the error side of Except.
-/

namespace Sim

/-- Runtime panics the embedded code can raise: rand's gen_range on an
empty range, and Duration.from_secs_f64 on a non-finite argument. -/
inductive Panic where
  | emptyRange
  | durationNotFinite
deriving DecidableEq, Repr

/-- Embedding of rand Rng.gen_range over an inclusive integer range
low..=high: it panics when the range is empty (low > high), otherwise it
returns a value of the range determined by the generator word r.  The
reduction r % (high - low + 1) realises the crate contract that the
sample lies in [low, high] and is the identity draw when low = high. -/
def genRange (low high : Nat) (r : Nat) : Except Panic Nat :=
  if low > high then Except.error Panic.emptyRange
  else Except.ok (low + r % (high - low + 1))

/-- Embedding of GeneralConfig from src/config.rs.  All integer fields are
u32 in the source; bounds are enforced at deserialization (see
TransactionConfig.deserialize below for the field-range treatment). -/
structure GeneralConfig where
  account_count : Nat
  enable_throttling : Bool
  generate_reports : Bool
  tps : Nat
deriving DecidableEq, Repr

/-- Embedding of TransactionConfig from src/config.rs.  The four value
bounds are u32 fields in the source. -/
structure TransactionConfig where
  min_deposit_value : Nat
  max_deposit_value : Nat
  min_transfer_value : Nat
  max_transfer_value : Nat
deriving DecidableEq, Repr

/-- Embedding of Config from src/config.rs. -/
structure Config where
  general : GeneralConfig
  transaction : TransactionConfig
deriving DecidableEq, Repr

/-- The exclusive upper bound of the Rust u32 type, 2^32. -/
def u32Bound : Nat := 4294967296

/-- Embedding of the serde/toml deserialization of one u32 field in
Config.load_from_file: an integer below 2^32 is accepted as is, any
larger integer fails deserialization of the configuration file. -/
def deserializeU32 (n : Nat) : Option Nat :=
  if n < u32Bound then some n else none

/-- Embedding of deserializing the [transaction] section of the
configuration file into TransactionConfig: each of the four u32 fields
goes through deserializeU32, and the whole section fails when any one
field is out of range. -/
def TransactionConfig.deserialize (a b c d : Nat) : Option TransactionConfig :=
  match deserializeU32 a, deserializeU32 b, deserializeU32 c, deserializeU32 d with
  | some a1, some b1, some c1, some d1 =>
      some { min_deposit_value := a1, max_deposit_value := b1,
             min_transfer_value := c1, max_transfer_value := d1 }
  | _, _, _, _ => none

/-- Embedding of the Transaction struct from src/transaction.rs.  The
struct in the source has no fields at all: it records neither a variant
tag, nor a target account, nor an amount. -/
structure Transaction where
deriving DecidableEq, Repr

/-- The amount drawn inside Transaction.generate_deposit
(src/transaction.rs): rng.gen_range(min_deposit_value..=max_deposit_value)
on the thread-local generator word r. -/
def Transaction.depositDraw (config : Config) (r : Nat) : Except Panic Nat :=
  genRange config.transaction.min_deposit_value config.transaction.max_deposit_value r

/-- Embedding of Transaction.generate_deposit from src/transaction.rs.
The source creates a thread-local rng (modelled by the ambient word r),
draws an amount from the inclusive deposit range, and then returns the
fieldless value Transaction {} without storing the amount anywhere. -/
def Transaction.generate_deposit (config : Config) (r : Nat) : Except Panic Transaction :=
  match Transaction.depositDraw config r with
  | Except.error e => Except.error e
  | Except.ok _amount => Except.ok {}

/-- The configuration of the spec scenario: accountCount 5, tps 10,
deposit bounds both 100 (transfer bounds arbitrary in-range values). -/
def scenarioConfig : Config :=
  { general := { account_count := 5, enable_throttling := true,
                 generate_reports := false, tps := 10 },
    transaction := { min_deposit_value := 100, max_deposit_value := 100,
                     min_transfer_value := 1, max_transfer_value := 10 } }

/-- Embedding of the Throttler struct from src/throttler.rs: a start
instant recorded once at construction and a fixed transaction interval.
Instants and durations are rational numbers of seconds. -/
structure Throttler where
  start_time : ℚ
  transaction_interval : ℚ
deriving DecidableEq, Repr

/-- Embedding of Throttler.new from src/throttler.rs, called at wall
clock now.  The source computes Duration.from_secs_f64 (1.0 / tps): for
tps = 0 the division yields positive infinity and from_secs_f64 panics;
for tps at least 1 the interval is 1 / tps seconds. -/
def Throttler.new (now : ℚ) (tps : Nat) : Except Panic Throttler :=
  if tps = 0 then Except.error Panic.durationNotFinite
  else Except.ok { start_time := now, transaction_interval := 1 / (tps : ℚ) }

/-- Embedding of Throttler.throttle from src/throttler.rs, entered at
wall clock now: the elapsed time is measured from the single recorded
start_time (the struct is never mutated), and the call sleeps exactly
the shortfall to one interval when elapsed is below it.  The result is
the wall clock at which the call returns. -/
def Throttler.throttle (t : Throttler) (now : ℚ) : ℚ :=
  let elapsed := now - t.start_time
  if elapsed < t.transaction_interval then now + (t.transaction_interval - elapsed)
  else now

/-- Completion times of consecutive throttle calls by a fast
(non-blocking) caller that constructed the throttler at its start_time:
fastCompl t 0 is the instant the first call begins, and the k-th call
begins the instant the previous one returns. -/
def Throttler.fastCompl (t : Throttler) : Nat → ℚ
  | 0 => t.start_time
  | k + 1 => t.throttle (Throttler.fastCompl t k)

/-- The throttler produced by Throttler.new 0 1: targetTps = 1,
constructed at wall clock 0. -/
def throttlerOne : Throttler :=
  { start_time := 0, transaction_interval := 1 }

/-- The per-tick transaction count drawn at the top of
Cli.start_simulation (src/cli.rs): rng.gen_range(1..=config.general.tps)
on the thread-local generator word r. -/
def Cli.num_transactions (config : Config) (r : Nat) : Except Panic Nat :=
  genRange 1 config.general.tps r

/-- Embedding of Cli.start_simulation from src/cli.rs, entered at wall
clock now: draw the per-tick count, construct the throttler, and run the
loop (whose body only throttles; submission is an empty stub).  Only the
panic behaviour and the unit result are observable. -/
def Cli.start_simulation (config : Config) (r : Nat) (now : ℚ) : Except Panic Unit := do
  let _num ← Cli.num_transactions config r
  let _throttler ← Throttler.new now config.general.tps
  Except.ok ()

/-- Observable result of one process run: the exit status and the lines
printed to stderr. -/
structure RunResult where
  exit_code : Nat
  stderr : List String
deriving DecidableEq, Repr

/-- Embedding of Cli.run from src/cli.rs together with main from
src/main.rs.  The configuration load result is passed in already
resolved.  On a load error the source prints the message to stderr and
returns from run; main then returns unit, so the process exit status is
0.  On success it calls start_simulation, discards its Result, and again
exits 0. -/
def Cli.run (load : Except String Config) (r : Nat) (now : ℚ) : Except Panic RunResult :=
  match load with
  | Except.error err =>
      Except.ok { exit_code := 0, stderr := ["Error loading configuration: " ++ err] }
  | Except.ok config =>
      match Cli.start_simulation config r now with
      | Except.error p => Except.error p
      | Except.ok _ => Except.ok { exit_code := 0, stderr := [] }

/-- Embedding of ChangePubKeyFeeType from src/rollup/types/mod.rs. -/
inductive ChangePubKeyFeeType where
  | Onchain
  | ECDSA
  | CREATE2
deriving DecidableEq, Repr

/-- Embedding of OutputFeeType from src/rollup/types/mod.rs. -/
inductive OutputFeeType where
  | Transfer
  | TransferToNew
  | FastWithdraw
  | Withdraw
  | ChangePubKey (sub : ChangePubKeyFeeType)
  | MintNFT
  | WithdrawNFT
  | FastWithdrawNFT
deriving DecidableEq, Repr

/-- Embedding of the Fee struct from src/rollup/types/mod.rs: all six
fields are public and filled directly by deserialization of the provider
response; the BigUint quantities are modelled as Nat.  The source
defines no constructor function and no validation of the fields. -/
structure Fee where
  fee_type : OutputFeeType
  gas_tx_amount : Nat
  gas_price_wei : Nat
  gas_fee : Nat
  zkp_fee : Nat
  total_fee : Nat
deriving DecidableEq, Repr

/-- A Fee value whose total_fee differs from gas_fee + zkp_fee, built by
plain struct construction exactly as any deserialized response would
be. -/
def feeUnbalanced : Fee :=
  { fee_type := OutputFeeType.Transfer, gas_tx_amount := 0, gas_price_wei := 0,
    gas_fee := 1, zkp_fee := 1, total_fee := 5 }

/-- Embedding of BlockInfo from src/rollup/types/mod.rs. -/
structure BlockInfo where
  block_number : Int
  committed : Bool
  verified : Bool
deriving DecidableEq, Repr

/-- Embedding of TransactionInfo from src/rollup/types/mod.rs. -/
structure TransactionInfo where
  executed : Bool
  success : Option Bool
  fail_reason : Option String
  block : Option BlockInfo
deriving DecidableEq, Repr

/-- Embedding of TransactionInfo.is_verified from src/rollup/types/mod.rs:
executed && block.filter(verified).is_some(). -/
def TransactionInfo.is_verified (t : TransactionInfo) : Bool :=
  t.executed && (Option.filter (fun x => x.verified) t.block).isSome

/-- Embedding of EthOpInfo from src/rollup/types/mod.rs. -/
structure EthOpInfo where
  executed : Bool
  block : Option BlockInfo
deriving DecidableEq, Repr

/-- Embedding of EthOpInfo.is_verified from src/rollup/types/mod.rs:
executed && block.filter(verified).is_some(). -/
def EthOpInfo.is_verified (e : EthOpInfo) : Bool :=
  e.executed && (Option.filter (fun x => x.verified) e.block).isSome

/-- C1: the throttler has no rolling deadline.  Throttler.new 0 1
(targetTps = 1, constructed at time 0) measures every call against the
single construction instant: the first fast call completes at 1 second,
and every later call returns immediately, so the k-th call also
completes at 1 second; in particular the 3rd call completes strictly
before the 2 seconds the claim requires. -/
theorem c1_throttler_fixed_start_instant :
    Throttler.new 0 1 = Except.ok throttlerOne ∧
    (∀ k : Nat, throttlerOne.fastCompl (k + 1) = 1) ∧
    throttlerOne.fastCompl 3 < 2 := by
  have hstep : ∀ k : Nat, throttlerOne.fastCompl (k + 1) = 1 := by
    intro k
    induction k with
    | zero =>
        simp [Throttler.fastCompl, Throttler.throttle, throttlerOne]
    | succ n ih =>
        rw [Throttler.fastCompl, ih]
        simp [Throttler.throttle, throttlerOne]
  refine ⟨by simp [Throttler.new, throttlerOne], hstep, ?_⟩
  rw [show (3 : Nat) = 2 + 1 from rfl, hstep 2]
  norm_num

/-- C2: constructing the throttler with targetTps = 0 panics inside
Duration.from_secs_f64 on the infinite interval 1.0 / 0.0; it does not
return an InvalidRate error (no such error exists in the code) nor any
usable limiter. -/
theorem c2_new_zero_panics :
    ∀ now : ℚ, Throttler.new now 0 = Except.error Panic.durationNotFinite := by
  intro now
  rfl

/-- C3: at the collapsed bounds a = b = 100 the amount drawn inside
generate_deposit is deterministically 100, but the function returns the
fieldless Transaction {} and the drawn amount is discarded: no produced
transaction carries an amount. -/
theorem c3_deposit_amount_drawn_not_stored :
    (∀ r : Nat, Transaction.depositDraw scenarioConfig r = Except.ok 100) ∧
    (∀ r : Nat, Transaction.generate_deposit scenarioConfig r = Except.ok {}) := by
  constructor
  · intro r
    simp [Transaction.depositDraw, genRange, scenarioConfig, Nat.mod_one]
  · intro r
    simp [Transaction.generate_deposit, Transaction.depositDraw, genRange, scenarioConfig]

/-- C4: the Transaction type is a fieldless struct, so any two
transactions are equal, and generate_deposit at the scenario
configuration (accountCount = 5) returns that empty value: it carries no
Deposit variant tag and no target account identifier. -/
theorem c4_deposit_has_no_target_account :
    (∀ t1 t2 : Transaction, t1 = t2) ∧
    (∀ r : Nat, Transaction.generate_deposit scenarioConfig r = Except.ok {}) := by
  constructor
  · intro t1 t2
    cases t1
    cases t2
    rfl
  · intro r
    simp [Transaction.generate_deposit, Transaction.depositDraw, genRange, scenarioConfig]

/-- C5: on a configuration load failure Cli.run prints the error message
to stderr and returns normally, so the process exit status is 0, not
non-zero. -/
theorem c5_config_load_failure_exit_zero :
    ∀ (err : String) (r : Nat) (now : ℚ),
      Cli.run (Except.error err) r now =
        Except.ok { exit_code := 0,
                    stderr := ["Error loading configuration: " ++ err] } := by
  intro err r now
  rfl

/-- C6: for every configuration with tps at least 1 and every generator
word, the per-tick transaction count drawn at the start of
start_simulation is at least 1 and at most tps. -/
theorem c6_tick_count_in_bounds :
    ∀ (config : Config) (r : Nat), 1 ≤ config.general.tps →
      ∃ m, Cli.num_transactions config r = Except.ok m ∧
        1 ≤ m ∧ m ≤ config.general.tps := by
  intro config r h
  refine ⟨1 + r % config.general.tps, ?_, ?_, ?_⟩
  · simp [Cli.num_transactions, genRange, Nat.not_lt.mpr h, Nat.sub_add_cancel h]
  · exact Nat.le_add_right 1 _
  · have hlt : r % config.general.tps < config.general.tps :=
      Nat.mod_lt r (Nat.lt_of_lt_of_le Nat.zero_lt_one h)
    omega

/-- C6 witness: the scenario configuration has tps = 10, and with
generator word 7 the drawn count is in [1, 10]. -/
theorem c6_tick_count_in_bounds_witness :
    1 ≤ scenarioConfig.general.tps ∧
    ∃ m, Cli.num_transactions scenarioConfig 7 = Except.ok m ∧
      1 ≤ m ∧ m ≤ scenarioConfig.general.tps :=
  ⟨by decide, c6_tick_count_in_bounds scenarioConfig 7 (by decide)⟩

/-- C7 counterexample: feeUnbalanced is a constructed Fee whose
total_fee (5) differs from gas_fee + zkp_fee (1 + 1): a Fee violating
the equation can be constructed. -/
theorem c7_fee_invariant_counterexample :
    feeUnbalanced.total_fee ≠ feeUnbalanced.gas_fee + feeUnbalanced.zkp_fee := by
  decide

/-- C7 amended: the Fee struct enforces no relation between its fee
fields — for every choice of gas_fee, zkp_fee and total_fee there is a
constructible Fee carrying exactly those values. -/
theorem c7_fee_fields_unconstrained :
    ∀ g z t : Nat, ∃ f : Fee, f.gas_fee = g ∧ f.zkp_fee = z ∧ f.total_fee = t :=
  fun g z t =>
    ⟨{ fee_type := OutputFeeType.Transfer, gas_tx_amount := 0, gas_price_wei := 0,
       gas_fee := g, zkp_fee := z, total_fee := t }, rfl, rfl, rfl⟩

/-- C8: the result of generate_deposit does not depend on the
thread-local generator word at all — any two words give the same result
for any configuration — because the drawn amount is discarded and the
returned Transaction is fieldless; the source has no generator
parameter through which a seed could be injected. -/
theorem c8_generate_deposit_ignores_generator :
    ∀ (config : Config) (r1 r2 : Nat),
      Transaction.generate_deposit config r1 = Transaction.generate_deposit config r2 := by
  intro config r1 r2
  by_cases h : config.transaction.max_deposit_value < config.transaction.min_deposit_value <;>
    simp [Transaction.generate_deposit, Transaction.depositDraw, genRange, h]

/-- C9 counterexample: the value 2^32 = 4294967296 is a uint64 value
above 2^32 - 1, and a configuration file carrying it in the deposit
bounds fails deserialization: it is not representable in the loaded
configuration. -/
theorem c9_u64_value_rejected :
    TransactionConfig.deserialize 4294967296 4294967296 0 0 = none := by
  decide

/-- C9 amended: the four value-bound fields are 32-bit — deserialization
accepts a field assignment exactly when every field is below 2^32, and
then stores the values unchanged. -/
theorem c9_bounds_are_u32 :
    ∀ a b c d : Nat,
      TransactionConfig.deserialize a b c d =
        if a < u32Bound ∧ b < u32Bound ∧ c < u32Bound ∧ d < u32Bound then
          some { min_deposit_value := a, max_deposit_value := b,
                 min_transfer_value := c, max_transfer_value := d }
        else none := by
  intro a b c d
  by_cases ha : a < u32Bound <;> by_cases hb : b < u32Bound <;>
    by_cases hc : c < u32Bound <;> by_cases hd : d < u32Bound <;>
    simp [TransactionConfig.deserialize, deserializeU32, ha, hb, hc, hd]

/-- C10: is_verified returns true exactly when executed is true and the
block is present and verified, for TransactionInfo and for EthOpInfo;
an executed transaction with no block or with an unverified block is
reported as not verified. -/
theorem c10_is_verified_characterization :
    (∀ t : TransactionInfo, t.is_verified = true ↔
      t.executed = true ∧ ∃ b, t.block = some b ∧ b.verified = true) ∧
    (∀ e : EthOpInfo, e.is_verified = true ↔
      e.executed = true ∧ ∃ b, e.block = some b ∧ b.verified = true) := by
  constructor
  · intro t
    rcases t with ⟨ex, su, fr, blk⟩
    cases blk with
    | none => simp [TransactionInfo.is_verified, Option.filter]
    | some b =>
        by_cases hv : b.verified <;>
          simp [TransactionInfo.is_verified, Option.filter, hv]
  · intro e
    rcases e with ⟨ex, blk⟩
    cases blk with
    | none => simp [EthOpInfo.is_verified, Option.filter]
    | some b =>
        by_cases hv : b.verified <;>
          simp [EthOpInfo.is_verified, Option.filter, hv]

end Sim
